import Mathlib

/-!
Verification of the body-composition metric core of `streamlit_app.py`.

The Python source computes with IEEE floats; the embedding models the
arithmetic exactly over `ℚ`, mirroring each source function's formula
verbatim.  Division by zero follows Lean's convention `x / 0 = 0`; every
theorem that depends on a divisor carries the corresponding nonzero or
positivity hypothesis.
-/

namespace AlmiConverter

/-- Source `lbs_to_kg`: convert pounds to kilograms. -/
def lbs_to_kg (lbs : ℚ) : ℚ := lbs / 2.20462

/-- Source `kg_to_lbs`: convert kilograms to pounds. -/
def kg_to_lbs (kg : ℚ) : ℚ := kg * 2.20462

/-- Source `inches_to_m`: convert inches to meters. -/
def inches_to_m (inches : ℚ) : ℚ := inches * 0.0254

/-- Source `m_to_inches`: convert meters to inches. -/
def m_to_inches (m : ℚ) : ℚ := m / 0.0254

/-- Source `calculate_alm_from_limbs`: total appendicular lean mass. -/
def calculate_alm_from_limbs (left_arm right_arm left_leg right_leg : ℚ) : ℚ :=
  left_arm + right_arm + left_leg + right_leg

/-- Source `calculate_almi_from_alm`: ALMI from appendicular lean mass. -/
def calculate_almi_from_alm (alm height_m : ℚ) : ℚ := alm / height_m ^ 2

/-- Source `calculate_alm_from_almi`: appendicular lean mass from ALMI. -/
def calculate_alm_from_almi (almi height_m : ℚ) : ℚ := almi * height_m ^ 2

/-- Source `calculate_ffmi_from_ffm`: FFMI from fat-free mass. -/
def calculate_ffmi_from_ffm (ffm height_m : ℚ) : ℚ := ffm / height_m ^ 2

/-- Source `calculate_ffm_from_ffmi`: fat-free mass from FFMI. -/
def calculate_ffm_from_ffmi (ffmi height_m : ℚ) : ℚ := ffmi * height_m ^ 2

/-- The intermediate `fat_free_mass` computed inside the source's
`calculate_ffmi_from_weight_bf`. -/
def fat_free_mass_from_weight_bf (weight_kg body_fat_pct : ℚ) : ℚ :=
  weight_kg * (1 - body_fat_pct / 100)

/-- Source `calculate_ffmi_from_weight_bf`: FFMI from weight and body-fat
percentage. -/
def calculate_ffmi_from_weight_bf (weight_kg body_fat_pct height_m : ℚ) : ℚ :=
  fat_free_mass_from_weight_bf weight_kg body_fat_pct / height_m ^ 2

/-- The dictionary returned by the source's `calculate_body_recomp`. -/
structure RecompResult where
  current_lean : ℚ
  current_fat : ℚ
  new_lean : ℚ
  new_fat : ℚ
  new_weight : ℚ
  new_bf_pct : ℚ
  net_weight_change : ℚ
  total_fat_loss : ℚ
deriving Repr, DecidableEq

/-- Source `calculate_body_recomp`: comprehensive body recomposition. -/
def calculate_body_recomp (current_weight current_bf_pct target_lean_gain
    target_fat_loss target_vat_loss : ℚ) : RecompResult :=
  let current_fat_mass := current_weight * (current_bf_pct / 100)
  let current_lean_mass := current_weight - current_fat_mass
  let new_lean_mass := current_lean_mass + target_lean_gain
  let new_fat_mass := current_fat_mass - target_fat_loss - target_vat_loss
  let new_weight := new_lean_mass + new_fat_mass
  let new_bf_pct := (new_fat_mass / new_weight) * 100
  let net_weight_change := new_weight - current_weight
  { current_lean := current_lean_mass
    current_fat := current_fat_mass
    new_lean := new_lean_mass
    new_fat := new_fat_mass
    new_weight := new_weight
    new_bf_pct := new_bf_pct
    net_weight_change := net_weight_change
    total_fat_loss := target_fat_loss + target_vat_loss }

/-- C1: `calculate_body_recomp` returns exactly the spec's formulas, and on
the scenario (70 kg, 20 %, +5 kg lean, −8 kg fat, −1 kg visceral) yields
current_fat = 14, current_lean = 56, new_lean = 61, new_fat = 5,
new_weight = 66 and a new body-fat percentage within 0.01 of 7.58. -/
theorem calculate_body_recomp_formulas_and_scenario :
    (∀ w b g s v : ℚ,
      let r := calculate_body_recomp w b g s v
      r.current_fat = w * b / 100 ∧
      r.current_lean = w - w * b / 100 ∧
      r.new_lean = (w - w * b / 100) + g ∧
      r.new_fat = w * b / 100 - s - v ∧
      r.new_weight = r.new_lean + r.new_fat ∧
      r.new_bf_pct = r.new_fat / r.new_weight * 100 ∧
      r.net_weight_change = r.new_weight - w) ∧
    (calculate_body_recomp 70 20 5 8 1).current_fat = 14 ∧
    (calculate_body_recomp 70 20 5 8 1).current_lean = 56 ∧
    (calculate_body_recomp 70 20 5 8 1).new_lean = 61 ∧
    (calculate_body_recomp 70 20 5 8 1).new_fat = 5 ∧
    (calculate_body_recomp 70 20 5 8 1).new_weight = 66 ∧
    |(calculate_body_recomp 70 20 5 8 1).new_bf_pct - 7.58| < 1 / 100 := by
  refine ⟨fun w b g s v => ?_, ?_⟩
  · refine ⟨?_, ?_, ?_, ?_, ?_, ?_, ?_⟩ <;> simp only [calculate_body_recomp] <;> try ring
  · norm_num [calculate_body_recomp, abs_lt]

/-- C5: for any inputs, the lean side conserves mass exactly:
`new_lean - current_lean = target_lean_gain`. -/
theorem calculate_body_recomp_lean_conservation (w b g s v : ℚ) :
    (calculate_body_recomp w b g s v).new_lean -
      (calculate_body_recomp w b g s v).current_lean = g := by
  simp only [calculate_body_recomp]
  ring

/-- C2: for every index value and positive height, mass-from-index followed
by index-from-mass returns the index exactly, for both the ALMI and the FFMI
pair of conversions. -/
theorem index_mass_roundtrip (i h : ℚ) (hp : 0 < h) :
    calculate_almi_from_alm (calculate_alm_from_almi i h) h = i ∧
    calculate_ffmi_from_ffm (calculate_ffm_from_ffmi i h) h = i := by
  have h2 : h ^ 2 ≠ 0 := pow_ne_zero 2 (ne_of_gt hp)
  constructor <;>
    · simp only [calculate_almi_from_alm, calculate_alm_from_almi,
        calculate_ffmi_from_ffm, calculate_ffm_from_ffmi]
      field_simp

/-- Witness for C2 at index 3, height 2. -/
theorem index_mass_roundtrip_witness :
    calculate_almi_from_alm (calculate_alm_from_almi 3 2) 2 = 3 ∧
    calculate_ffmi_from_ffm (calculate_ffm_from_ffmi 3 2) 2 = 3 :=
  index_mass_roundtrip 3 2 (by norm_num)

/-- C6: for every x ≥ 0 the pound/kilogram conversions round-trip within
1e-6 relative tolerance (in the exact-rational embedding the round trip is
the identity, so the error is 0). -/
theorem lbs_kg_roundtrip (x : ℚ) (hx : 0 ≤ x) :
    |kg_to_lbs (lbs_to_kg x) - x| ≤ 1e-6 * x ∧
    |lbs_to_kg (kg_to_lbs x) - x| ≤ 1e-6 * x := by
  have hc : (2.20462 : ℚ) ≠ 0 := by norm_num
  have h1 : kg_to_lbs (lbs_to_kg x) = x := by
    unfold kg_to_lbs lbs_to_kg
    field_simp
  have h2 : lbs_to_kg (kg_to_lbs x) = x := by
    unfold kg_to_lbs lbs_to_kg
    field_simp
  rw [h1, h2, sub_self, abs_zero]
  have : (0:ℚ) ≤ 1e-6 * x := by positivity
  exact ⟨this, this⟩

/-- Witness for C6 at x = 5. -/
theorem lbs_kg_roundtrip_witness :
    |kg_to_lbs (lbs_to_kg 5) - 5| ≤ 1e-6 * 5 ∧
    |lbs_to_kg (kg_to_lbs 5) - 5| ≤ 1e-6 * 5 :=
  lbs_kg_roundtrip 5 (by norm_num)

/-- C7 counterexample: at weight 0 and body-fat 150 (outside [0,100]) the
intermediate fat-free mass is 0, not negative, so the claim's universal
"b > 100 silently yields a negative fat-free mass" fails as stated. -/
theorem ffmi_weight_bf_quirk_counterexample :
    (100:ℚ) < 150 ∧ fat_free_mass_from_weight_bf 0 150 = 0 ∧
    ¬ fat_free_mass_from_weight_bf 0 150 < 0 := by
  norm_num [fat_free_mass_from_weight_bf]

/-- C7 (amended): `calculate_ffmi_from_weight_bf` returns
w * (1 - b/100) / h² with no clamping of b, and for positive weight w a
body-fat percentage above 100 yields a negative fat-free mass while a
negative one yields a fat-free mass exceeding w. -/
theorem calculate_ffmi_from_weight_bf_formula_and_quirk (w b h : ℚ) :
    calculate_ffmi_from_weight_bf w b h = w * (1 - b / 100) / h ^ 2 ∧
    (0 < w → 100 < b → fat_free_mass_from_weight_bf w b < 0) ∧
    (0 < w → b < 0 → w < fat_free_mass_from_weight_bf w b) := by
  refine ⟨rfl, fun hw hb => ?_, fun hw hb => ?_⟩
  · unfold fat_free_mass_from_weight_bf
    have hneg : 1 - b / 100 < 0 := by linarith
    exact mul_neg_of_pos_of_neg hw hneg
  · unfold fat_free_mass_from_weight_bf
    have hb' : (0:ℚ) < -b := by linarith
    nlinarith [mul_pos hw hb']

/-- Witness for C7 (amended) at weight 2, height 1, body-fat 150 and −50. -/
theorem calculate_ffmi_from_weight_bf_quirk_witness :
    fat_free_mass_from_weight_bf 2 150 < 0 ∧
    2 < fat_free_mass_from_weight_bf 2 (-50) :=
  ⟨(calculate_ffmi_from_weight_bf_formula_and_quirk 2 150 1).2.1 (by norm_num)
      (by norm_num),
   (calculate_ffmi_from_weight_bf_formula_and_quirk 2 (-50) 1).2.2 (by norm_num)
      (by norm_num)⟩

/-- C8 counterexample: at (10 kg, 90 %, +0 lean, −12 fat, −0 visceral) the
combined losses 12 exceed current_fat = 9, yet new_weight = −2 and the
computed new_bf_pct is +150 — positive and well defined — so the claim's
universal "negative/undefined body-fat percentage" fails as stated. -/
theorem calculate_body_recomp_positive_bf_counterexample :
    (calculate_body_recomp 10 90 0 12 0).current_fat < 12 + 0 ∧
    (calculate_body_recomp 10 90 0 12 0).new_fat = -3 ∧
    (calculate_body_recomp 10 90 0 12 0).new_weight = -2 ∧
    (calculate_body_recomp 10 90 0 12 0).new_bf_pct = 150 ∧
    ¬ (calculate_body_recomp 10 90 0 12 0).new_bf_pct < 0 := by
  norm_num [calculate_body_recomp]

/-- C8 (amended): whenever the combined fat losses exceed current_fat, the returned
new_fat is negative (no clamping), and whenever the resulting new_weight
is positive the new body-fat percentage is negative. -/
theorem calculate_body_recomp_negative_fat (w b g s v : ℚ)
    (hex : (calculate_body_recomp w b g s v).current_fat < s + v) :
    (calculate_body_recomp w b g s v).new_fat < 0 ∧
    (0 < (calculate_body_recomp w b g s v).new_weight →
      (calculate_body_recomp w b g s v).new_bf_pct < 0) := by
  simp only [calculate_body_recomp] at hex ⊢
  refine ⟨by linarith, fun hw => ?_⟩
  have hnf : w * (b / 100) - s - v < 0 := by linarith
  exact mul_neg_of_neg_of_pos (div_neg_of_neg_of_pos hnf hw) (by norm_num)

/-- Witness for C8 at (70 kg, 20 %, +5 lean, −20 fat, −0 visceral). -/
theorem calculate_body_recomp_negative_fat_witness :
    (calculate_body_recomp 70 20 5 20 0).new_fat < 0 ∧
    (calculate_body_recomp 70 20 5 20 0).new_bf_pct < 0 := by
  have h := calculate_body_recomp_negative_fat 70 20 5 20 0
    (by norm_num [calculate_body_recomp])
  exact ⟨h.1, h.2 (by norm_num [calculate_body_recomp])⟩

/-- The ALMI Male table literal of the source's `get_percentile_targets`,
kept in source (insertion) order. -/
def almi_male_targets : List (String × ℚ) :=
  [("5th percentile", 6.8), ("25th percentile", 7.8),
   ("50th percentile (median)", 8.5), ("75th percentile", 9.4),
   ("95th percentile", 10.8)]

/-- The ALMI Female table literal of the source's `get_percentile_targets`. -/
def almi_female_targets : List (String × ℚ) :=
  [("5th percentile", 5.2), ("25th percentile", 6.0),
   ("50th percentile (median)", 6.8), ("75th percentile", 7.6),
   ("95th percentile", 8.8)]

/-- The FFMI Male table literal of the source's `get_percentile_targets`. -/
def ffmi_male_targets : List (String × ℚ) :=
  [("5th percentile", 16.5), ("25th percentile", 18.0),
   ("50th percentile (median)", 19.5), ("75th percentile", 21.0),
   ("95th percentile", 23.5)]

/-- The FFMI Female table literal of the source's `get_percentile_targets`. -/
def ffmi_female_targets : List (String × ℚ) :=
  [("5th percentile", 14.5), ("25th percentile", 15.5),
   ("50th percentile (median)", 16.5), ("75th percentile", 17.5),
   ("95th percentile", 19.0)]

/-- Source `get_percentile_targets`: percentile-based targets, selected by
string equality on metric_type and gender, with the else branches taking
FFMI and Female respectively. -/
def get_percentile_targets (gender metric_type : String) : List (String × ℚ) :=
  if metric_type = "ALMI" then
    if gender = "Male" then almi_male_targets else almi_female_targets
  else
    if gender = "Male" then ffmi_male_targets else ffmi_female_targets

/-- The five band labels of every table, in order. -/
def percentile_band_labels : List String :=
  ["5th percentile", "25th percentile", "50th percentile (median)",
   "75th percentile", "95th percentile"]

/-- C9: each of the four (metric, gender) configurations returns its fixed
constant table — `get_percentile_targets` is a pure function of the two
strings, so the result is independent of any other data — and every table
has exactly the five bands 5th/25th/50th/75th/95th with strictly ascending
index values. -/
theorem get_percentile_targets_tables :
    get_percentile_targets "Male" "ALMI" = almi_male_targets ∧
    get_percentile_targets "Female" "ALMI" = almi_female_targets ∧
    get_percentile_targets "Male" "FFMI" = ffmi_male_targets ∧
    get_percentile_targets "Female" "FFMI" = ffmi_female_targets ∧
    (∀ t ∈ [almi_male_targets, almi_female_targets,
            ffmi_male_targets, ffmi_female_targets],
      t.map Prod.fst = percentile_band_labels ∧
      t.length = 5 ∧
      List.Chain' (fun a b : ℚ => a < b) (t.map Prod.snd)) := by
  refine ⟨rfl, rfl, rfl, rfl, ?_⟩
  intro t ht
  fin_cases ht <;>
    refine ⟨rfl, rfl, ?_⟩ <;>
    · simp only [almi_male_targets, almi_female_targets, ffmi_male_targets,
        ffmi_female_targets, List.map, List.chain'_cons, List.chain'_singleton,
        and_true]
      norm_num

/-- C10: `get_percentile_targets` is total on arbitrary strings and falls
back silently: any gender other than exactly "Male" selects the Female
table, and any metric_type other than exactly "ALMI" selects the FFMI
table. -/
theorem get_percentile_targets_fallback (gender metric_type : String) :
    (gender ≠ "Male" →
      get_percentile_targets gender metric_type =
        (if metric_type = "ALMI" then almi_female_targets
         else ffmi_female_targets)) ∧
    (metric_type ≠ "ALMI" →
      get_percentile_targets gender metric_type =
        (if gender = "Male" then ffmi_male_targets
         else ffmi_female_targets)) := by
  constructor
  · intro hg
    unfold get_percentile_targets
    by_cases hm : metric_type = "ALMI" <;> simp [hm, hg]
  · intro hm
    unfold get_percentile_targets
    by_cases hg : gender = "Male" <;> simp [hm, hg]

/-- Witness for C10 at gender "Unknown", metric_type "BMI". -/
theorem get_percentile_targets_fallback_witness :
    get_percentile_targets "Unknown" "BMI" = ffmi_female_targets ∧
    get_percentile_targets "Unknown" "BMI" = ffmi_female_targets :=
  ⟨(get_percentile_targets_fallback "Unknown" "BMI").1 (by decide),
   (get_percentile_targets_fallback "Unknown" "BMI").2 (by decide)⟩

/-- The hard-coded monthly lean-gain rate table of the source's
recomposition timeline in `main` (timeline_data): Male gets
[0.68, 0.34, 0.11] kg/month, any other gender [0.34, 0.17, 0.06]. -/
def recomp_monthly_rates (gender : String) : List ℚ :=
  if gender = "Male" then [0.68, 0.34, 0.11] else [0.34, 0.17, 0.06]

/-- The per-level month count the source computes in timeline_data:
months = target_lean_gain / rate. -/
def timeline_months (target_lean_gain rate : ℚ) : ℚ := target_lean_gain / rate

/-- Outcome of the spec's Timeline Estimator. -/
inductive TimelineResult where
  | achieved
  | noGains
  | months (lo hi : ℚ)
deriving Repr, DecidableEq

/-- Modelled from the spec: the §4.5 Timeline Estimator (annual gain-rate
range, 120-month cap, zero-rate guard) has no counterpart in
`streamlit_app.py`, whose timeline only divides by fixed positive monthly
rates.  Following the spec's words: mass_needed ≤ 0 gives the
already-achieved result, otherwise a zero min_annual gives the explicit
no-gains result, otherwise min_months = mass_needed / max_annual * 12 and
max_months = mass_needed / min_annual * 12 capped at 120. -/
def estimate_timeline (mass_needed min_annual max_annual : ℚ) :
    TimelineResult :=
  if mass_needed ≤ 0 then TimelineResult.achieved
  else if min_annual = 0 then TimelineResult.noGains
  else TimelineResult.months (mass_needed / max_annual * 12)
    (min (mass_needed / min_annual * 12) 120)

/-- C3: for every positive mass_needed, a zero minimum gain rate yields the
explicit no-gains outcome (never a division by zero or an unbounded month
count: any month count returned is capped at 120), and the source's own
timeline never divides by zero because every rate of its hard-coded table
is positive. -/
theorem timeline_zero_rate_no_gains (mass_needed min_annual max_annual : ℚ)
    (hm : 0 < mass_needed) :
    (min_annual = 0 →
      estimate_timeline mass_needed min_annual max_annual =
        TimelineResult.noGains) ∧
    (∀ lo hi, estimate_timeline mass_needed min_annual max_annual =
        TimelineResult.months lo hi → hi ≤ 120) ∧
    (∀ gender, ∀ rate ∈ recomp_monthly_rates gender, 0 < rate) := by
  refine ⟨fun h0 => ?_, fun lo hi hE => ?_, fun gender rate hr => ?_⟩
  · unfold estimate_timeline
    rw [if_neg (not_le.mpr hm), if_pos h0]
  · unfold estimate_timeline at hE
    rw [if_neg (not_le.mpr hm)] at hE
    by_cases h0 : min_annual = 0
    · rw [if_pos h0] at hE
      exact absurd hE (by simp)
    · rw [if_neg h0] at hE
      injection hE with h1 h2
      rw [← h2]
      exact min_le_right _ _
  · unfold recomp_monthly_rates at hr
    by_cases hg : gender = "Male"
    · rw [if_pos hg] at hr
      fin_cases hr <;> norm_num
    · rw [if_neg hg] at hr
      fin_cases hr <;> norm_num

/-- Witness for C3 at mass_needed 5, min_annual 0. -/
theorem timeline_zero_rate_no_gains_witness :
    estimate_timeline 5 0 9 = TimelineResult.noGains ∧ (0:ℚ) < 0.68 := by
  have h := timeline_zero_rate_no_gains 5 0 9 (by norm_num)
  exact ⟨h.1 rfl, h.2.2 "Male" 0.68 (by simp [recomp_monthly_rates])⟩

/-- Reported goal outcome in `main`. -/
inductive TargetStatus where
  | achieved
  | need (amount : ℚ)
deriving Repr, DecidableEq

/-- The Specific Target branch of `main`: mass_needed = target − current;
report the gain amount when positive, else "Target already reached!". -/
def specific_target_status (current_mass target_mass : ℚ) : TargetStatus :=
  let mass_needed := target_mass - current_mass
  if 0 < mass_needed then TargetStatus.need mass_needed
  else TargetStatus.achieved

/-- The Percentile Goals branch of `main`: mass_needed =
max(0, target − current); "Achieved" when it is 0, else "Need +…". -/
def percentile_goal_status (current_mass target_mass : ℚ) : TargetStatus :=
  let mass_needed := max 0 (target_mass - current_mass)
  if mass_needed = 0 then TargetStatus.achieved
  else TargetStatus.need mass_needed

lemma targetStatus_cases (cm tm : ℚ) :
    ((tm - cm ≤ 0 ↔ specific_target_status cm tm = TargetStatus.achieved) ∧
     (tm - cm ≤ 0 ↔ percentile_goal_status cm tm = TargetStatus.achieved)) ∧
    ((0 < tm - cm ↔
        specific_target_status cm tm = TargetStatus.need (tm - cm)) ∧
     (0 < tm - cm ↔
        percentile_goal_status cm tm = TargetStatus.need (tm - cm))) := by
  simp only [specific_target_status, percentile_goal_status]
  rcases le_or_lt (tm - cm) 0 with hle | hlt
  · have hmax : max 0 (tm - cm) = 0 := max_eq_left hle
    rw [if_neg hle.not_lt, hmax, if_pos rfl]
    simp [hle, hle.not_lt]
  · have hmax : max 0 (tm - cm) = tm - cm := max_eq_right hlt.le
    rw [if_pos hlt, hmax, if_neg (ne_of_gt hlt)]
    simp [hlt, hlt.not_le]

/-- C4: with current and target masses obtained from the index values by
mass-from-index, both branches report the already-achieved outcome exactly
when the mass delta is ≤ 0, and report a "Need +…" amount equal to the
positive delta exactly when the delta is positive; the FFMI mass
conversion is the same function, so the same holds per metric type. -/
theorem target_status_achieved_iff (ci ti h : ℚ) :
    ((calculate_alm_from_almi ti h - calculate_alm_from_almi ci h ≤ 0 ↔
        specific_target_status (calculate_alm_from_almi ci h)
          (calculate_alm_from_almi ti h) = TargetStatus.achieved) ∧
     (calculate_alm_from_almi ti h - calculate_alm_from_almi ci h ≤ 0 ↔
        percentile_goal_status (calculate_alm_from_almi ci h)
          (calculate_alm_from_almi ti h) = TargetStatus.achieved)) ∧
    ((0 < calculate_alm_from_almi ti h - calculate_alm_from_almi ci h ↔
        specific_target_status (calculate_alm_from_almi ci h)
          (calculate_alm_from_almi ti h) =
          TargetStatus.need
            (calculate_alm_from_almi ti h - calculate_alm_from_almi ci h)) ∧
     (0 < calculate_alm_from_almi ti h - calculate_alm_from_almi ci h ↔
        percentile_goal_status (calculate_alm_from_almi ci h)
          (calculate_alm_from_almi ti h) =
          TargetStatus.need
            (calculate_alm_from_almi ti h - calculate_alm_from_almi ci h))) ∧
    (∀ i, calculate_ffm_from_ffmi i h = calculate_alm_from_almi i h) :=
  ⟨(targetStatus_cases _ _).1, (targetStatus_cases _ _).2, fun _ => rfl⟩

end AlmiConverter
